import Mathlib

/-!
# SEAP loan-evaluation pipeline — shallow embedding and verification

Shallow embedding of the SEAP repository's evaluation pipeline:

* `src/lib/validation-service.ts` (namespace `VSLib`): the named
  validation service (income stage, delinquency stage, bureau stage,
  bank stage, amount calculator, orchestrator `evaluateCliente`).
* the second validation-service variant shipped in the repository
  (namespace `VSOld`): same pipeline without the standalone income
  stage, with a zero-amount rejection in the orchestrator, an
  inhabilitado (tier-5) rejection in the bureau stage, and extra caps
  in the amount calculator.
* the two `BCRAService` variants (namespaces `BCRAServiceA` and
  `BCRAServiceB`): tax-identifier validation/derivation, the retrying
  bureau client, response reduction, and the simulated (mock)
  response generators — `BCRAServiceA`'s mock draws fresh global
  randomness, `BCRAServiceB`'s mock is seeded from the identifier.

Modelling conventions:

* JS numbers used as money/percentages become `ℚ`; counts become `Nat`.
* Fallible code (`throw`) becomes `Except String _` carrying the thrown
  message; the code's own `try`/`catch` structure is reproduced by
  matching on those values.  Every embedded orchestrator is a total
  function: in the source each stage catches its own exceptions, so the
  orchestrator-level `catch` branches are unreachable.
* Ambient effects become explicit parameters: `Math.random()` draws are
  a `Nat → ℚ` stream (or a single `ℚ` for a single draw), the network
  outcome of one attempt is an `Except String BCRAResponse`, the wall
  clock is a `String` timestamp, and the environment credential is an
  `Option String`.
* The repository ships two `BCRAService` variants and the import target
  of `validation-service.ts` is ambiguous, so the identifier service
  (`validateCuit` / `dniToCuit`) and the mock generator used by a
  validation service are passed as parameters; theorems quantify over
  them or instantiate them with the embedded variants.
* `details` payloads are modelled by the fields later code actually
  reads (`requiresManualReview`, `banco`, `porcentajeProblematicas`,
  `montoTotal`, `montoDeuda`); interpolated numeric fragments of
  message strings are dropped, fixed message strings are kept verbatim.
-/

namespace SEAP

/-! ## Data model -/

inductive TipoEmpleado where
  | publico
  | privado
  | jubilado
  | unset
deriving DecidableEq, Repr

structure ClienteData where
  nombre : String
  apellido : String
  dni : String
  sueldoNeto : ℚ
  tipoEmpleado : TipoEmpleado
  provincia : String
  bancoPagador : String
  numeroCuenta : Option String
deriving DecidableEq, Repr

structure Banco where
  id : String
  nombre : String
  restricciones : Bool
  situacion : Nat
  requiereCuenta : Bool
deriving DecidableEq, Repr

structure Deuda where
  entidad : String
  situacion : Nat
  monto : ℚ
  fechaActualizacion : String
deriving DecidableEq, Repr

structure Resumen where
  situacion1 : Nat
  situacion2 : Nat
  situacion3 : Nat
  situacion4 : Nat
  situacion5 : Nat
  totalEntidades : Nat
  montoTotal : ℚ
deriving DecidableEq, Repr

structure BCRAResponse where
  cuit : String
  fechaConsulta : String
  deudas : List Deuda
  resumen : Resumen
  inhabilitado : Bool
deriving DecidableEq, Repr

/-! ## Shared digit arithmetic (CUIT checksum)

Both `BCRAService` variants use the same weighted mod-11 checksum over
the first ten digits, with multipliers `[5,4,3,2,7,6,5,4,3,2]` and
check digit `r` when `r = sum % 11 < 2`, else `11 - r`. -/

def charDigit (c : Char) : Nat := c.toNat - 48

def multipliers : List Nat := [5, 4, 3, 2, 7, 6, 5, 4, 3, 2]

def weightedSum (ds : List Nat) : Nat :=
  (List.zipWith (fun m d => m * d) multipliers ds).foldl (fun a b => a + b) 0

def checkDigitFrom (sum : Nat) : Nat :=
  let r := sum % 11
  if r < 2 then r else 11 - r

theorem checkDigitFrom_lt_ten (sum : Nat) : checkDigitFrom sum < 10 := by
  unfold checkDigitFrom
  have h : sum % 11 < 11 := Nat.mod_lt _ (by omega)
  simp only []
  split <;> omega

theorem digitChar_isDigit (d : Nat) (h : d < 10) : (Nat.digitChar d).isDigit = true := by
  interval_cases d <;> decide

theorem charDigit_digitChar (d : Nat) (h : d < 10) : charDigit (Nat.digitChar d) = d := by
  interval_cases d <;> decide

end SEAP

namespace BCRAServiceB

/-! ## `BCRAService`, strict variant

The variant whose `validateCuit` requires exactly 11 digits, whose
`dniToCuit` requires exactly 8 digits, whose credential comes from the
environment, and whose mock generator is seeded from the identifier. -/

def validateCuitChecksum (cuit : String) : Bool :=
  SEAP.checkDigitFrom (SEAP.weightedSum ((cuit.data.take 10).map SEAP.charDigit))
    == SEAP.charDigit (cuit.data.getD 10 '0')

def validateCuit (cuit : String) : Bool :=
  cuit.length == 11 && cuit.data.all Char.isDigit && validateCuitChecksum cuit

def dniToCuit (dni : String) : Except String String :=
  if dni.length ≠ 8 then Except.error ("DNI inválido")
  else
    let base : List Char := '2' :: '0' :: dni.data
    let d := SEAP.checkDigitFrom (SEAP.weightedSum ((base.take 10).map SEAP.charDigit))
    Except.ok (String.mk (base ++ [Nat.digitChar d]))

/-- Response reduction: per-tier counts, totals, and
`inhabilitado = (situacion5 count > 0)`.  Tier values outside 1–5 are
not counted. -/
def processResponse (deudas : List SEAP.Deuda) (cuit now : String) : SEAP.BCRAResponse :=
  let s1 := (deudas.filter (fun d => d.situacion = 1)).length
  let s2 := (deudas.filter (fun d => d.situacion = 2)).length
  let s3 := (deudas.filter (fun d => d.situacion = 3)).length
  let s4 := (deudas.filter (fun d => d.situacion = 4)).length
  let s5 := (deudas.filter (fun d => d.situacion = 5)).length
  let montoTotal : ℚ := (deudas.map (fun d => d.monto)).foldl (fun a b => a + b) 0
  { cuit := cuit
    fechaConsulta := now
    deudas := deudas
    resumen :=
      { situacion1 := s1, situacion2 := s2, situacion3 := s3, situacion4 := s4
        situacion5 := s5, totalEntidades := deudas.length, montoTotal := montoTotal }
    inhabilitado := decide (0 < s5) }

def strTakeLast (n : Nat) (s : String) : String :=
  String.mk (s.data.drop (s.data.length - n))

def digitsToNat (ds : List Char) : Nat :=
  ds.foldl (fun a c => 10 * a + SEAP.charDigit c) 0

/-- JS `parseInt` on a decimal string: value of the longest leading digit
run, `none` (NaN) when there is none. -/
def parseIntLeading (s : String) : Option Nat :=
  let ds := s.data.takeWhile Char.isDigit
  if ds.isEmpty then none else some (digitsToNat ds)

/-- Simulated bureau response, seeded from the last four digits of the
identifier (`seed * 9301 + 49297 mod 233280`, scaled to `[0,1)`).
`none` models the NaN-poisoned path taken when the seed does not parse,
which real 11-digit identifiers never hit.  `now` is the wall clock,
used only for the timestamp fields. -/
def generateMockResponse (cuit : String) (now : String) : Option SEAP.BCRAResponse :=
  (parseIntLeading (strTakeLast 4 cuit)).map (fun seed =>
    let random : ℚ := (Nat.cast ((seed * 9301 + 49297) % 233280) : ℚ) / 233280
    if random < 7/10 then
      { cuit := cuit
        fechaConsulta := now
        deudas :=
          [ { entidad := "Banco Nación", situacion := 1, monto := 0, fechaActualizacion := now }
          , { entidad := "Banco Galicia", situacion := 2, monto := 15000, fechaActualizacion := now } ]
        resumen :=
          { situacion1 := 1, situacion2 := 1, situacion3 := 0, situacion4 := 0
            situacion5 := 0, totalEntidades := 2, montoTotal := 15000 }
        inhabilitado := false }
    else
      let totalEntidades := (⌊random * 4⌋).toNat + 2
      let problematicas := (⌊(totalEntidades : ℚ) * (6/10)⌋).toNat
      { cuit := cuit
        fechaConsulta := now
        deudas := (List.range totalEntidades).map (fun i =>
          { entidad := "Entidad " ++ toString (i + 1)
            situacion := if i < problematicas then (if random < 1/2 then 3 else 4) else 1
            monto := ((⌊random * 100000⌋ : ℤ) : ℚ)
            fechaActualizacion := now })
        resumen :=
          { situacion1 := totalEntidades - problematicas
            situacion2 := 0
            situacion3 := (⌊(problematicas : ℚ) * (7/10)⌋).toNat
            situacion4 := (⌊(problematicas : ℚ) * (3/10)⌋).toNat
            situacion5 := if random < 1/10 then 1 else 0
            totalEntidades := totalEntidades
            montoTotal := ((⌊random * 500000⌋ : ℤ) : ℚ) }
        inhabilitado := random < 1/10 })

end BCRAServiceB

namespace BCRAServiceA

/-! ## `BCRAService`, lenient variant

The variant whose `validateCuit` strips dashes/spaces and accepts any
7–8 digit DNI outright, whose `dniToCuit` left-pads 7–8 digit DNIs, and
whose mock generator draws fresh global randomness. -/

def validateCuit (cuit : String) : Bool :=
  let cleanCuit : List Char := cuit.data.filter (fun c => c ≠ '-' ∧ c ≠ ' ')
  if ¬ (7 ≤ cleanCuit.length ∧ cleanCuit.length ≤ 11 ∧ cleanCuit.all Char.isDigit) then
    false
  else if cleanCuit.length ≤ 8 then
    true
  else
    SEAP.checkDigitFrom (SEAP.weightedSum ((cleanCuit.take 10).map SEAP.charDigit))
      == SEAP.charDigit (cleanCuit.getD 10 '0')

def dniToCuit (dni : String) : Except String String :=
  let cleanDni : List Char := dni.data.filter Char.isDigit
  if cleanDni.length < 7 ∨ 8 < cleanDni.length then Except.error ("DNI_INVALID_LENGTH")
  else
    let base : List Char := '2' :: '0' :: (List.replicate (8 - cleanDni.length) '0' ++ cleanDni)
    let d := SEAP.checkDigitFrom (SEAP.weightedSum ((base.take 10).map SEAP.charDigit))
    Except.ok (String.mk (base ++ [Nat.digitChar d]))

/-- Simulated bureau response, variant drawing fresh global randomness.
`rng` is the ambient `Math.random()` stream (each call reads the next
value; indices follow evaluation order), so two calls of the source
function may observe different streams. -/
def generateMockResponse (rng : Nat → ℚ) (cuit : String) (now : String) : SEAP.BCRAResponse :=
  let random := rng 0
  if random < 7/10 then
    { cuit := cuit
      fechaConsulta := now
      deudas :=
        [ { entidad := "Banco Nación", situacion := 1, monto := 0, fechaActualizacion := now }
        , { entidad := "Banco Galicia", situacion := 2, monto := 15000, fechaActualizacion := now } ]
      resumen :=
        { situacion1 := 1, situacion2 := 1, situacion3 := 0, situacion4 := 0
          situacion5 := 0, totalEntidades := 2, montoTotal := 15000 }
      inhabilitado := false }
  else
    let totalEntidades := (⌊rng 1 * 4⌋).toNat + 2
    let problematicas := (⌊(totalEntidades : ℚ) * (6/10)⌋).toNat
    { cuit := cuit
      fechaConsulta := now
      deudas := (List.range totalEntidades).map (fun i =>
        { entidad := "Entidad " ++ toString (i + 1)
          situacion := if i < problematicas then (if rng (2 + 2 * i) < 1/2 then 3 else 4) else 1
          monto := ((⌊rng (3 + 2 * i) * 100000⌋ : ℤ) : ℚ)
          fechaActualizacion := now })
      resumen :=
        { situacion1 := totalEntidades - problematicas
          situacion2 := 0
          situacion3 := (⌊(problematicas : ℚ) * (7/10)⌋).toNat
          situacion4 := (⌊(problematicas : ℚ) * (3/10)⌋).toNat
          situacion5 := if rng (2 + 2 * totalEntidades) < 1/10 then 1 else 0
          totalEntidades := totalEntidades
          montoTotal := ((⌊rng (3 + 2 * totalEntidades) * 500000⌋ : ℤ) : ℚ) }
      inhabilitado := rng (4 + 2 * totalEntidades) < 1/10 }

end BCRAServiceA

namespace SEAP

/-! ## The retrying bureau client

`consultarDeudas` (strict variant): with no credential it returns the
mock response; with a credential it makes up to `MAX_RETRIES = 3`
attempts, waiting `2 ^ attempt * 1000` ms after each failed attempt
except the last, and finally rethrows the last error (the
`MAX_RETRIES_EXCEEDED` marker is thrown only when no error was
recorded).  One network attempt is an `Except String BCRAResponse`
supplied by the environment, indexed by attempt number. -/

structure RetryTrace where
  attemptsMade : Nat
  delays : List Nat
  outcome : Except String BCRAResponse
deriving Repr

instance {ε α : Type _} [DecidableEq ε] [DecidableEq α] : DecidableEq (Except ε α) := fun a b =>
  match a, b with
  | Except.ok x, Except.ok y =>
      if h : x = y then isTrue (by rw [h]) else isFalse (by intro hc; cases hc; exact h rfl)
  | Except.error x, Except.error y =>
      if h : x = y then isTrue (by rw [h]) else isFalse (by intro hc; cases hc; exact h rfl)
  | Except.ok _, Except.error _ => isFalse (by intro hc; cases hc)
  | Except.error _, Except.ok _ => isFalse (by intro hc; cases hc)

instance : DecidableEq RetryTrace := fun a b =>
  match a, b with
  | ⟨m1, d1, o1⟩, ⟨m2, d2, o2⟩ =>
      if h : m1 = m2 ∧ d1 = d2 ∧ o1 = o2 then
        isTrue (by obtain ⟨ha, hb, hc⟩ := h; rw [ha, hb, hc])
      else
        isFalse (by intro hc; cases hc; exact h ⟨rfl, rfl, rfl⟩)

def MAX_RETRIES : Nat := 3

def retryLoop (attempts : Nat → Except String BCRAResponse) (attemptIdx : Nat)
    (remaining : Nat) (lastError : Option String) : RetryTrace :=
  match remaining with
  | 0 => { attemptsMade := 0, delays := [], outcome := Except.error (lastError.getD ("MAX_RETRIES_EXCEEDED")) }
  | r + 1 =>
    match attempts attemptIdx with
    | Except.ok resp => { attemptsMade := 1, delays := [], outcome := Except.ok resp }
    | Except.error e =>
      let t := retryLoop attempts (attemptIdx + 1) r (some e)
      if r = 0 then
        { attemptsMade := t.attemptsMade + 1, delays := t.delays, outcome := t.outcome }
      else
        { attemptsMade := t.attemptsMade + 1, delays := 2 ^ attemptIdx * 1000 :: t.delays
          outcome := t.outcome }

end SEAP

namespace BCRAServiceB

/-- The strict variant's `consultarDeudas`.  `token` is the environment
credential; `mock` the simulated-response collaborator (the source calls
its own `generateMockResponse`); `attempts` the network. -/
def consultarDeudas (token : Option String) (mock : String → SEAP.BCRAResponse)
    (attempts : Nat → Except String SEAP.BCRAResponse) (cuit : String) : SEAP.RetryTrace :=
  match token with
  | none => { attemptsMade := 0, delays := [], outcome := Except.ok (mock cuit) }
  | some _ => SEAP.retryLoop attempts 1 SEAP.MAX_RETRIES none

end BCRAServiceB

namespace SEAP

inductive Resultado where
  | aprobado
  | rechazado
  | pendiente
deriving DecidableEq, Repr

/-- `validateCuit(dni) ? dni : dniToCuit(dni)` — the tax identifier a
validation service sends to the bureau, for a given identifier-service
pair `(vc, tc)`. -/
def cuitStep (vc : String → Bool) (tc : String → Except String String)
    (dni : String) : Except String String :=
  if vc dni then Except.ok dni else tc dni

end SEAP

namespace VSLib

/-! ## `src/lib/validation-service.ts`

The named validation service: income stage (`validateSueldoMinimo`),
delinquency stage (`validateProtecap`), bureau stage (`validateBCRA`),
bank stage (`validateBanco`), amount calculator (`calculateMaxAmount`)
and orchestrator (`evaluateCliente`).  This variant has no tier-5
rejection in the bureau stage (the flag is carried to the calculator,
which answers a flat 100000), and no zero-amount rejection in the
orchestrator. -/

/-- `ValidationResult`: `success`, `message`, and the `details` fields
later code reads. -/
structure VRes where
  success : Bool
  message : String
  requiresManualReview : Bool := false
  montoDeuda : Option ℚ := none
  banco : Option SEAP.Banco := none
deriving DecidableEq, Repr

/-- The bureau stage's extended result: a `ValidationResult` plus the
top-level `situacion5` / `porcentajeProblematicas` fields. -/
structure BcraRes where
  success : Bool
  message : String
  requiresManualReview : Bool := false
  situacion5 : Bool := false
  porcentajeProblematicas : ℚ := 0
deriving DecidableEq, Repr

def clientesMorosos : List (String × Bool × ℚ) :=
  [("12345678", true, 50000), ("87654321", false, 0), ("11223344", true, 25000)]

def bancosHabilitados : List SEAP.Banco :=
  [ { id := "nacion", nombre := "Banco Nación", restricciones := false, situacion := 1, requiereCuenta := false }
  , { id := "macro", nombre := "Banco Macro", restricciones := true, situacion := 2, requiereCuenta := true }
  , { id := "santander", nombre := "Banco Santander", restricciones := false, situacion := 2, requiereCuenta := false }
  , { id := "galicia", nombre := "Banco Galicia", restricciones := false, situacion := 2, requiereCuenta := false }
  , { id := "bbva", nombre := "BBVA", restricciones := true, situacion := 3, requiereCuenta := false }
  , { id := "icbc", nombre := "ICBC", restricciones := false, situacion := 1, requiereCuenta := false }
  , { id := "supervielle", nombre := "Banco Supervielle", restricciones := false, situacion := 2, requiereCuenta := false } ]

def validateSueldoMinimo (sueldoNeto : ℚ) : VRes :=
  if sueldoNeto < 500000 then
    { success := false, message := "Sueldo insuficiente. Mínimo requerido: $500.000" }
  else
    { success := true, message := "Sueldo cumple requisitos mínimos" }

def validateProtecap (dni : String) : VRes :=
  match clientesMorosos.find? (fun c => c.1 == dni) with
  | some c =>
    if c.2.1 then
      { success := false, message := "Cliente con crédito activo en base Protecap"
        montoDeuda := some c.2.2 }
    else
      { success := true, message := "Cliente sin créditos activos en Protecap", montoDeuda := some 0 }
  | none =>
      { success := true, message := "Cliente sin créditos activos en Protecap", montoDeuda := some 0 }

/-- The tail of `validateBCRA` analysing a successfully consulted
response: derive the tier-5 flag, compute the problematic percentage,
reject at 40% or more. -/
def analyzeBCRA (bcraResponse : SEAP.BCRAResponse) : BcraRes :=
  let situacion5 := bcraResponse.inhabilitado || decide (0 < bcraResponse.resumen.situacion5)
  let totalProblematicas :=
    bcraResponse.resumen.situacion3 + bcraResponse.resumen.situacion4
      + bcraResponse.resumen.situacion5
  let porcentajeProblematicas : ℚ :=
    if 0 < bcraResponse.resumen.totalEntidades then
      ((totalProblematicas : ℚ) / (bcraResponse.resumen.totalEntidades : ℚ)) * 100
    else 0
  if 40 ≤ porcentajeProblematicas then
    { success := false, message := "Porcentaje alto de situaciones problemáticas"
      situacion5 := situacion5, porcentajeProblematicas := porcentajeProblematicas }
  else
    { success := true, message := "Situación BCRA favorable"
      situacion5 := situacion5, porcentajeProblematicas := porcentajeProblematicas }

/-- The bureau stage.  `vc`/`tc` are the identifier service
(`validateCuit` / `dniToCuit` of a `BCRAService` variant), `mock` the
simulated-response collaborator, `fetch` the outcome of
`consultarDeudas`.  A thrown identifier derivation lands in the outer
`catch` (generic technical error, manual review); a thrown consult other
than `TOKEN_NOT_CONFIGURED` yields the technical-error result (manual
review); `TOKEN_NOT_CONFIGURED` falls back to the mock. -/
def validateBCRA (vc : String → Bool) (tc : String → Except String String)
    (mock : String → SEAP.BCRAResponse) (fetch : Except String SEAP.BCRAResponse)
    (dni : String) : BcraRes :=
  match SEAP.cuitStep vc tc dni with
  | Except.error _ =>
      { success := false, message := "Error técnico en validación BCRA"
        requiresManualReview := true }
  | Except.ok cuit =>
    let consulted : Except String SEAP.BCRAResponse :=
      match fetch with
      | Except.ok r => Except.ok r
      | Except.error e =>
          if e = "TOKEN_NOT_CONFIGURED" then Except.ok (mock cuit) else Except.error e
    match consulted with
    | Except.error _ =>
        { success := false, message := "Error técnico en consulta BCRA - Pendiente revisión manual"
          requiresManualReview := true }
    | Except.ok bcraResponse => analyzeBCRA bcraResponse

/-- JS truthiness of the optional account number (`!cuenta` is true for
a missing value and for the empty string). -/
def cuentaTruthy : Option String → Bool
  | none => false
  | some s => s ≠ ""

/-- JS `String.prototype.trim`: strip leading and trailing whitespace. -/
def trimStr (s : String) : String :=
  String.mk (((s.data.dropWhile Char.isWhitespace).reverse.dropWhile Char.isWhitespace).reverse)

def cuentaBlank : Option String → Bool
  | none => true
  | some s => trimStr s == ""

/-- The bank stage.  `rand` is the ambient `Math.random()` draw used by
the simulated blocked-account check. -/
def validateBanco (rand : ℚ) (c : SEAP.ClienteData) : VRes :=
  match bancosHabilitados.find? (fun b => b.id == c.bancoPagador) with
  | none => { success := false, message := "Banco no habilitado" }
  | some banco =>
    if banco.id = "macro" ∧ c.tipoEmpleado = SEAP.TipoEmpleado.privado then
      { success := false, message := "Banco Macro no acepta empleados privados", banco := some banco }
    else if banco.restricciones = true ∧ c.sueldoNeto ≤ 650000 then
      { success := false, message := "requiere sueldo superior a $650.000", banco := some banco }
    else if 4 ≤ banco.situacion then
      { success := false, message := "No habilitado por situación", banco := some banco }
    else if banco.requiereCuenta = true ∧ cuentaBlank c.numeroCuenta = true then
      { success := false, message := "requiere número de cuenta", banco := some banco }
    else if banco.id = "macro" ∧ cuentaTruthy c.numeroCuenta = true ∧ rand < 1/10 then
      { success := false, message := "Cuenta bancaria bloqueada", banco := some banco }
    else
      { success := true, message := "habilitado", banco := some banco }

/-- The amount calculator: a tier-5 flag answers a flat 100000;
otherwise the base is chosen by strict income brackets and employment
category, then capped at 150000 when the payer bank is in situación 3. -/
def calculateMaxAmount (c : SEAP.ClienteData) (bcraResult : BcraRes)
    (bancoResult : VRes) : ℚ :=
  if bcraResult.situacion5 = true then 100000
  else
    let montoMaximo : ℚ :=
      if 1000000 < c.sueldoNeto then
        match c.tipoEmpleado with
        | SEAP.TipoEmpleado.publico => 200000
        | SEAP.TipoEmpleado.jubilado => 200000
        | SEAP.TipoEmpleado.privado => 150000
        | SEAP.TipoEmpleado.unset => 0
      else if 800000 < c.sueldoNeto then
        match c.tipoEmpleado with
        | SEAP.TipoEmpleado.publico => 150000
        | SEAP.TipoEmpleado.jubilado => 150000
        | SEAP.TipoEmpleado.privado => 100000
        | SEAP.TipoEmpleado.unset => 0
      else if 500000 < c.sueldoNeto then 100000
      else 0
    match bancoResult.banco with
    | some b => if b.situacion = 3 then min montoMaximo 150000 else montoMaximo
    | none => montoMaximo

/-- `EvaluationResult`: the tri-state outcome, the optional amount and
reason, and the audit-trail fields (`detalles`). -/
structure EvaluationResult where
  resultado : SEAP.Resultado
  montoMaximo : Option ℚ := none
  motivoRechazo : Option String := none
  protecap : VRes
  bcra : BcraRes
  banco : VRes
  montoCalculado : Option ℚ := none
deriving DecidableEq, Repr

def noEvaluado : VRes := { success := false, message := "No evaluado" }

def noEvaluadoB : BcraRes := { success := false, message := "No evaluado" }

/-- The orchestrator.  Stages run in order (income, delinquency, bureau,
bank, amount); a stage failure short-circuits to `rechazado` except a
bureau failure flagged for manual review, which yields `pendiente`.
This variant approves whatever amount the calculator returns, including
`0`.  It is a total function: every stage catches its own faults. -/
def evaluateCliente (vc : String → Bool) (tc : String → Except String String)
    (mock : String → SEAP.BCRAResponse) (fetch : Except String SEAP.BCRAResponse)
    (rand : ℚ) (c : SEAP.ClienteData) : EvaluationResult :=
  let sueldoValidation := validateSueldoMinimo c.sueldoNeto
  if sueldoValidation.success = false then
    { resultado := SEAP.Resultado.rechazado, motivoRechazo := some sueldoValidation.message
      protecap := noEvaluado, bcra := noEvaluadoB, banco := noEvaluado }
  else
    let protecapResult := validateProtecap c.dni
    if protecapResult.success = false then
      { resultado := SEAP.Resultado.rechazado, motivoRechazo := some protecapResult.message
        protecap := protecapResult, bcra := noEvaluadoB, banco := noEvaluado }
    else
      let bcraResult := validateBCRA vc tc mock fetch c.dni
      if bcraResult.success = false then
        if bcraResult.requiresManualReview = true then
          { resultado := SEAP.Resultado.pendiente, motivoRechazo := some bcraResult.message
            protecap := protecapResult, bcra := bcraResult, banco := noEvaluado }
        else
          { resultado := SEAP.Resultado.rechazado, motivoRechazo := some bcraResult.message
            protecap := protecapResult, bcra := bcraResult, banco := noEvaluado }
      else
        let bancoResult := validateBanco rand c
        if bancoResult.success = false then
          { resultado := SEAP.Resultado.rechazado, motivoRechazo := some bancoResult.message
            protecap := protecapResult, bcra := bcraResult, banco := bancoResult }
        else
          let montoMaximo := calculateMaxAmount c bcraResult bancoResult
          { resultado := SEAP.Resultado.aprobado, montoMaximo := some montoMaximo
            protecap := protecapResult, bcra := bcraResult, banco := bancoResult
            montoCalculado := some montoMaximo }

end VSLib

namespace VSOld

/-! ## The second validation-service variant

The variant shipped alongside the named one: no standalone income
stage (income only enters through the amount brackets), an
inhabilitado (tier-5) rejection inside the bureau stage, extra caps in
the amount calculator (employment category, bureau problematic
percentage, bureau outstanding amount), and a zero-amount rejection in
the orchestrator. -/

/-- `ValidationResult` with the `details` fields later code reads. -/
structure VRes where
  success : Bool
  message : String
  requiresManualReview : Bool := false
  montoDeuda : Option ℚ := none
  banco : Option SEAP.Banco := none
  porcentajeProblematicas : Option ℚ := none
  montoTotal : Option ℚ := none
deriving DecidableEq, Repr

def clientesMorosos : List (String × Bool × ℚ) :=
  [("12345678", true, 50000), ("87654321", false, 0), ("11223344", true, 25000)]

def bancosData : List SEAP.Banco :=
  [ { id := "nacion", nombre := "Banco Nación", restricciones := false, situacion := 1, requiereCuenta := false }
  , { id := "macro", nombre := "Banco Macro", restricciones := true, situacion := 2, requiereCuenta := true }
  , { id := "santander", nombre := "Banco Santander", restricciones := false, situacion := 1, requiereCuenta := false }
  , { id := "galicia", nombre := "Banco Galicia", restricciones := false, situacion := 2, requiereCuenta := false }
  , { id := "bbva", nombre := "BBVA", restricciones := true, situacion := 3, requiereCuenta := false }
  , { id := "icbc", nombre := "ICBC", restricciones := false, situacion := 1, requiereCuenta := false } ]

def validateProtecap (dni : String) : VRes :=
  match clientesMorosos.find? (fun c => c.1 == dni) with
  | some c =>
    if c.2.1 then
      { success := false, message := "Cliente con crédito activo en base Protecap"
        montoDeuda := some c.2.2 }
    else
      { success := true, message := "Cliente sin créditos activos en Protecap", montoDeuda := some 0 }
  | none =>
      { success := true, message := "Cliente sin créditos activos en Protecap", montoDeuda := some 0 }

/-- The bureau stage of the second variant.  Distinguishes the consult
errors (`TIMEOUT`, `MAX_RETRIES_EXCEEDED`, `HTTP_ERROR_*`, unknown) —
all flagged for manual review — falls back to the mock on
`TOKEN_NOT_CONFIGURED`, then rejects outright (no manual review) on
`inhabilitado` before the problematic-percentage check. -/
def validateBCRA (vc : String → Bool) (tc : String → Except String String)
    (mock : String → SEAP.BCRAResponse) (fetch : Except String SEAP.BCRAResponse)
    (dni : String) : VRes :=
  match SEAP.cuitStep vc tc dni with
  | Except.error _ =>
      { success := false, message := "Error técnico en validación BCRA - Pendiente revisión manual"
        requiresManualReview := true }
  | Except.ok cuit =>
    let consulted : Except String SEAP.BCRAResponse :=
      match fetch with
      | Except.ok r => Except.ok r
      | Except.error e =>
          if e = "TOKEN_NOT_CONFIGURED" then Except.ok (mock cuit) else Except.error e
    match consulted with
    | Except.error e =>
        if e = "TIMEOUT" then
          { success := false, message := "Timeout en consulta BCRA - Pendiente revisión manual"
            requiresManualReview := true }
        else if e = "MAX_RETRIES_EXCEEDED" then
          { success := false, message := "Error de conexión con BCRA - Pendiente revisión manual"
            requiresManualReview := true }
        else if e.startsWith ("HTTP_ERROR_") then
          { success := false, message := "Error HTTP en consulta BCRA - Pendiente revisión manual"
            requiresManualReview := true }
        else
          { success := false, message := "Error técnico en consulta BCRA - Pendiente revisión manual"
            requiresManualReview := true }
    | Except.ok bcraResponse =>
        if bcraResponse.inhabilitado = true then
          { success := false, message := "Cliente inhabilitado en BCRA (Situación 5)" }
        else
          let totalProblematicas :=
            bcraResponse.resumen.situacion3 + bcraResponse.resumen.situacion4
              + bcraResponse.resumen.situacion5
          let porcentajeProblematicas : ℚ :=
            if 0 < bcraResponse.resumen.totalEntidades then
              ((totalProblematicas : ℚ) / (bcraResponse.resumen.totalEntidades : ℚ)) * 100
            else 0
          if 40 ≤ porcentajeProblematicas then
            { success := false, message := "Porcentaje alto de situaciones problemáticas"
              porcentajeProblematicas := some porcentajeProblematicas }
          else
            { success := true, message := "Situación BCRA favorable"
              porcentajeProblematicas := some porcentajeProblematicas
              montoTotal := some bcraResponse.resumen.montoTotal }

/-- The bank stage of the second variant: restriction boundary strict
(`sueldo < 650000` fails), blocked-account simulation for every bank at
probability 0.05. -/
def validateBanco (rand : ℚ) (c : SEAP.ClienteData) : VRes :=
  match bancosData.find? (fun b => b.id == c.bancoPagador) with
  | none => { success := false, message := "Banco no encontrado" }
  | some banco =>
    if banco.restricciones = true ∧ c.sueldoNeto < 650000 then
      { success := false, message := "requiere sueldo mínimo de $650.000", banco := some banco }
    else if 4 ≤ banco.situacion then
      { success := false, message := "No habilitado por situación", banco := some banco }
    else if banco.id = "macro" ∧ c.tipoEmpleado = SEAP.TipoEmpleado.privado then
      { success := false, message := "Banco Macro no acepta empleados privados", banco := some banco }
    else if banco.requiereCuenta = true ∧ VSLib.cuentaBlank c.numeroCuenta = true then
      { success := false, message := "requiere número de cuenta", banco := some banco }
    else if rand < 1/20 then
      { success := false, message := "Cuenta bancaria bloqueada", banco := some banco }
    else
      { success := true, message := "habilitado", banco := some banco }

/-- Paso 1: income brackets, inclusive bounds. -/
def bracketBase (sueldo : ℚ) : ℚ :=
  if 1000000 ≤ sueldo then 200000
  else if 800000 ≤ sueldo then 150000
  else if 500000 ≤ sueldo then 100000
  else 0

/-- Paso 2: cap by employment category. -/
def capEmpleado (a : ℚ) : SEAP.TipoEmpleado → ℚ
  | SEAP.TipoEmpleado.publico => min a 200000
  | SEAP.TipoEmpleado.jubilado => min a 200000
  | SEAP.TipoEmpleado.privado => min a 150000
  | SEAP.TipoEmpleado.unset => a

/-- Paso 3: cap when the payer bank is in situación 3. -/
def capBancoSituacion (a : ℚ) : Option SEAP.Banco → ℚ
  | some b => if b.situacion = 3 then min a 150000 else a
  | none => a

/-- Cap when the bureau problematic percentage exceeds 20. -/
def capPorcentaje (a : ℚ) : Option ℚ → ℚ
  | some p => if 20 < p then min a 100000 else a
  | none => a

/-- Cap when the bureau outstanding amount exceeds 100000. -/
def capMontoTotal (a : ℚ) : Option ℚ → ℚ
  | some m => if 100000 < m then min a 100000 else a
  | none => a

/-- The amount calculator of the second variant: bracket base, then the
four caps applied in sequence. -/
def calculateMaxAmount (c : SEAP.ClienteData) (bcra : VRes) (banco : VRes) : ℚ :=
  capMontoTotal
    (capPorcentaje
      (capBancoSituacion
        (capEmpleado (bracketBase c.sueldoNeto) c.tipoEmpleado)
        banco.banco)
      bcra.porcentajeProblematicas)
    bcra.montoTotal

structure EvaluationResult where
  resultado : SEAP.Resultado
  montoMaximo : Option ℚ := none
  motivoRechazo : Option String := none
  protecap : VRes
  bcra : VRes
  banco : VRes
  montoCalculado : Option ℚ := none
deriving DecidableEq, Repr

def noEvaluado : VRes := { success := false, message := "No evaluado" }

/-- The orchestrator of the second variant: delinquency, bureau, bank,
amount; a computed amount of `0` is rejected with a fixed message.  The
source wraps the body in `try`/`catch` mapping an unexpected fault to
`pendiente`; every stage is total here, so that branch is unreachable
and is not modelled. -/
def evaluateCliente (vc : String → Bool) (tc : String → Except String String)
    (mock : String → SEAP.BCRAResponse) (fetch : Except String SEAP.BCRAResponse)
    (rand : ℚ) (c : SEAP.ClienteData) : EvaluationResult :=
  let protecapResult := validateProtecap c.dni
  if protecapResult.success = false then
    { resultado := SEAP.Resultado.rechazado, motivoRechazo := some protecapResult.message
      protecap := protecapResult, bcra := noEvaluado, banco := noEvaluado }
  else
    let bcraResult := validateBCRA vc tc mock fetch c.dni
    if bcraResult.success = false then
      if bcraResult.requiresManualReview = true then
        { resultado := SEAP.Resultado.pendiente, motivoRechazo := some bcraResult.message
          protecap := protecapResult, bcra := bcraResult, banco := noEvaluado }
      else
        { resultado := SEAP.Resultado.rechazado, motivoRechazo := some bcraResult.message
          protecap := protecapResult, bcra := bcraResult, banco := noEvaluado }
    else
      let bancoResult := validateBanco rand c
      if bancoResult.success = false then
        { resultado := SEAP.Resultado.rechazado, motivoRechazo := some bancoResult.message
          protecap := protecapResult, bcra := bcraResult, banco := bancoResult }
      else
        let montoMaximo := calculateMaxAmount c bcraResult bancoResult
        if montoMaximo = 0 then
          { resultado := SEAP.Resultado.rechazado
            motivoRechazo := some "No califica para monto mínimo de préstamo"
            protecap := protecapResult, bcra := bcraResult, banco := bancoResult
            montoCalculado := some 0 }
        else
          { resultado := SEAP.Resultado.aprobado, montoMaximo := some montoMaximo
            protecap := protecapResult, bcra := bcraResult, banco := bancoResult
            montoCalculado := some montoMaximo }

end VSOld

namespace SEAP

/-! ## Concrete fixtures for witnesses and counterexamples -/

def clienteBase : ClienteData :=
  { nombre := "Ana", apellido := "Pérez", dni := "87654321", sueldoNeto := 500000
    tipoEmpleado := TipoEmpleado.publico, provincia := "CABA", bancoPagador := "nacion"
    numeroCuenta := none }

def cliente400 : ClienteData := { clienteBase with sueldoNeto := 400000 }

def cliente900pub : ClienteData := { clienteBase with sueldoNeto := 900000 }

def cliente900001pub : ClienteData := { clienteBase with sueldoNeto := 900001 }

def clienteMacro650 : ClienteData :=
  { clienteBase with sueldoNeto := 650000, bancoPagador := "macro", numeroCuenta := some "1234567890" }

/-- A favourable bureau response: one reporting entity in tier 1. -/
def respClean : BCRAResponse :=
  { cuit := "20876543215", fechaConsulta := "t", deudas := []
    resumen := { situacion1 := 1, situacion2 := 0, situacion3 := 0, situacion4 := 0
                 situacion5 := 0, totalEntidades := 1, montoTotal := 0 }
    inhabilitado := false }

/-- A passing bureau response with 25% problematic entities (1 of 4 in
tier 3): below the 40% rejection threshold, above the 20% cap line. -/
def resp25 : BCRAResponse :=
  { cuit := "20876543215", fechaConsulta := "t", deudas := []
    resumen := { situacion1 := 3, situacion2 := 0, situacion3 := 1, situacion4 := 0
                 situacion5 := 0, totalEntidades := 4, montoTotal := 0 }
    inhabilitado := false }

/-- A bureau response with one tier-5 entity among ten (10% problematic,
below the 40% threshold), `inhabilitado` as `processResponse` derives it. -/
def respSit5 : BCRAResponse :=
  { cuit := "20876543215", fechaConsulta := "t", deudas := []
    resumen := { situacion1 := 9, situacion2 := 0, situacion3 := 0, situacion4 := 0
                 situacion5 := 1, totalEntidades := 10, montoTotal := 0 }
    inhabilitado := true }

/-! ## C1 — zero amount and approval -/

/- Core's `Rat.mul`/`Rat.add`/`Rat.sub`/`Rat.inv` are `@[irreducible]`,
which blocks `decide` on concrete runs of the embedded pipeline; they
are sound computable definitions, so the `decide`-based theorems below
expose them to reduction locally with
`attribute [local semireducible] … in`. -/

attribute [local semireducible] Rat.mul Rat.add Rat.sub Rat.inv in
/-- C1 counterexample: in `src/lib`'s `evaluateCliente`, an applicant
whose income, delinquency, bureau and bank stages all pass and whose
calculated amount is `0` (net income exactly 500000, the strict bracket
bound) is `aprobado` with `montoMaximo = 0` — not `rechazado` — so the
claim "the orchestrator returns rechazado when the calculator returns 0,
and every approved outcome has montoMaximo > 0" is false of this code. -/
theorem evaluateClienteLib_zero_approved :
    (VSLib.evaluateCliente BCRAServiceB.validateCuit BCRAServiceB.dniToCuit
      (fun _ => respClean) (Except.ok respClean) (1/2) clienteBase).protecap.success = true ∧
    (VSLib.evaluateCliente BCRAServiceB.validateCuit BCRAServiceB.dniToCuit
      (fun _ => respClean) (Except.ok respClean) (1/2) clienteBase).bcra.success = true ∧
    (VSLib.evaluateCliente BCRAServiceB.validateCuit BCRAServiceB.dniToCuit
      (fun _ => respClean) (Except.ok respClean) (1/2) clienteBase).banco.success = true ∧
    (VSLib.evaluateCliente BCRAServiceB.validateCuit BCRAServiceB.dniToCuit
      (fun _ => respClean) (Except.ok respClean) (1/2) clienteBase).resultado = Resultado.aprobado ∧
    (VSLib.evaluateCliente BCRAServiceB.validateCuit BCRAServiceB.dniToCuit
      (fun _ => respClean) (Except.ok respClean) (1/2) clienteBase).montoMaximo = some 0 := by
  decide

/-! Helper lemmas about the second variant's cap chain. -/

theorem bracketBase_nonneg (s : ℚ) : 0 ≤ VSOld.bracketBase s := by
  unfold VSOld.bracketBase
  split_ifs <;> norm_num

theorem capEmpleado_le_self (a : ℚ) (t : TipoEmpleado) : VSOld.capEmpleado a t ≤ a := by
  cases t <;> simp [VSOld.capEmpleado, min_le_left]

theorem capBancoSituacion_le_self (a : ℚ) (b : Option Banco) :
    VSOld.capBancoSituacion a b ≤ a := by
  cases b with
  | none => simp [VSOld.capBancoSituacion]
  | some bk =>
    simp only [VSOld.capBancoSituacion]
    split_ifs <;> simp [min_le_left]

theorem capPorcentaje_le_self (a : ℚ) (p : Option ℚ) : VSOld.capPorcentaje a p ≤ a := by
  cases p with
  | none => simp [VSOld.capPorcentaje]
  | some q =>
    simp only [VSOld.capPorcentaje]
    split_ifs <;> simp [min_le_left]

theorem capMontoTotal_le_self (a : ℚ) (m : Option ℚ) : VSOld.capMontoTotal a m ≤ a := by
  cases m with
  | none => simp [VSOld.capMontoTotal]
  | some q =>
    simp only [VSOld.capMontoTotal]
    split_ifs <;> simp [min_le_left]

theorem capEmpleado_nonneg (a : ℚ) (t : TipoEmpleado) (h : 0 ≤ a) :
    0 ≤ VSOld.capEmpleado a t := by
  cases t <;> simp only [VSOld.capEmpleado] <;>
    first
    | exact h
    | exact le_min h (by norm_num)

theorem capBancoSituacion_nonneg (a : ℚ) (b : Option Banco) (h : 0 ≤ a) :
    0 ≤ VSOld.capBancoSituacion a b := by
  cases b with
  | none => simpa [VSOld.capBancoSituacion] using h
  | some bk =>
    simp only [VSOld.capBancoSituacion]
    split_ifs
    · exact le_min h (by norm_num)
    · exact h

theorem capPorcentaje_nonneg (a : ℚ) (p : Option ℚ) (h : 0 ≤ a) :
    0 ≤ VSOld.capPorcentaje a p := by
  cases p with
  | none => simpa [VSOld.capPorcentaje] using h
  | some q =>
    simp only [VSOld.capPorcentaje]
    split_ifs
    · exact le_min h (by norm_num)
    · exact h

theorem capMontoTotal_nonneg (a : ℚ) (m : Option ℚ) (h : 0 ≤ a) :
    0 ≤ VSOld.capMontoTotal a m := by
  cases m with
  | none => simpa [VSOld.capMontoTotal] using h
  | some q =>
    simp only [VSOld.capMontoTotal]
    split_ifs
    · exact le_min h (by norm_num)
    · exact h

theorem calculateMaxAmountOld_nonneg (c : ClienteData) (bcra banco : VSOld.VRes) :
    0 ≤ VSOld.calculateMaxAmount c bcra banco := by
  unfold VSOld.calculateMaxAmount
  exact capMontoTotal_nonneg _ _
    (capPorcentaje_nonneg _ _
      (capBancoSituacion_nonneg _ _
        (capEmpleado_nonneg _ _ (bracketBase_nonneg _))))

/-- C1 (amended): in the second variant's orchestrator, an applicant
whose delinquency, bureau and bank stages all pass and whose calculated
amount is `0` is `rechazado` with the fixed message
"No califica para monto mínimo de préstamo", and every `aprobado`
outcome carries a `montoMaximo` strictly greater than `0`.  (The
`src/lib` orchestrator lacks the zero-amount rejection; see the
counterexample.) -/
theorem evaluateClienteOld_zero_rejected :
    (∀ (vc : String → Bool) (tc : String → Except String String)
        (mock : String → BCRAResponse) (fetch : Except String BCRAResponse)
        (rand : ℚ) (c : ClienteData),
      (VSOld.evaluateCliente vc tc mock fetch rand c).resultado = Resultado.aprobado →
      ∃ m : ℚ, (VSOld.evaluateCliente vc tc mock fetch rand c).montoMaximo = some m ∧ 0 < m)
    ∧ (∀ (vc : String → Bool) (tc : String → Except String String)
        (mock : String → BCRAResponse) (fetch : Except String BCRAResponse)
        (rand : ℚ) (c : ClienteData),
      (VSOld.validateProtecap c.dni).success = true →
      (VSOld.validateBCRA vc tc mock fetch c.dni).success = true →
      (VSOld.validateBanco rand c).success = true →
      VSOld.calculateMaxAmount c (VSOld.validateBCRA vc tc mock fetch c.dni)
        (VSOld.validateBanco rand c) = 0 →
      (VSOld.evaluateCliente vc tc mock fetch rand c).resultado = Resultado.rechazado ∧
      (VSOld.evaluateCliente vc tc mock fetch rand c).motivoRechazo =
        some "No califica para monto mínimo de préstamo") := by
  constructor
  · intro vc tc mock fetch rand c h
    unfold VSOld.evaluateCliente at h ⊢
    by_cases hp : (VSOld.validateProtecap c.dni).success = false
    · simp [hp] at h
    by_cases hb : (VSOld.validateBCRA vc tc mock fetch c.dni).success = false
    · rcases Bool.eq_false_or_eq_true
        ((VSOld.validateBCRA vc tc mock fetch c.dni).requiresManualReview) with hm | hm
      · simp [hp, hb, hm] at h
      · simp [hp, hb, hm] at h
    by_cases hk : (VSOld.validateBanco rand c).success = false
    · simp [hp, hb, hk] at h
    by_cases hz : VSOld.calculateMaxAmount c (VSOld.validateBCRA vc tc mock fetch c.dni)
        (VSOld.validateBanco rand c) = 0
    · simp [hp, hb, hk, hz] at h
    · simp only [hp, hb, hk, hz, if_false, Bool.not_eq_false] at h ⊢
      simp [hz]
      exact lt_of_le_of_ne (calculateMaxAmountOld_nonneg _ _ _) (fun he => hz he.symm)
  · intro vc tc mock fetch rand c hp hb hk hz
    unfold VSOld.evaluateCliente
    simp [hp, hb, hk, hz]

/-! ## C2 — tier-5 (situación 5) handling -/

attribute [local semireducible] Rat.mul Rat.add Rat.sub Rat.inv in
/-- C2 counterexample: in `src/lib`, a bureau summary with tier-5 count
`1` (of 10 entities, 10% problematic) does not fail the bureau stage at
all — `validateBCRA` succeeds and only sets the `situacion5` flag — and
the evaluation is `aprobado` with the flag routed into the amount-cap
path (`montoMaximo = 100000`), not rejected outright as the claim
states. -/
theorem situacion5_routed_to_cap :
    respSit5.resumen.situacion5 = 1 ∧
    (VSLib.validateBCRA BCRAServiceB.validateCuit BCRAServiceB.dniToCuit
      (fun _ => respClean) (Except.ok respSit5) "87654321").success = true ∧
    (VSLib.validateBCRA BCRAServiceB.validateCuit BCRAServiceB.dniToCuit
      (fun _ => respClean) (Except.ok respSit5) "87654321").situacion5 = true ∧
    (VSLib.evaluateCliente BCRAServiceB.validateCuit BCRAServiceB.dniToCuit
      (fun _ => respClean) (Except.ok respSit5) (1/2) cliente900pub).resultado =
        Resultado.aprobado ∧
    (VSLib.evaluateCliente BCRAServiceB.validateCuit BCRAServiceB.dniToCuit
      (fun _ => respClean) (Except.ok respSit5) (1/2) cliente900pub).montoMaximo =
        some 100000 := by
  decide

theorem processResponse_inhabilitado (raw : List Deuda) (cuit now : String)
    (h : 0 < (BCRAServiceB.processResponse raw cuit now).resumen.situacion5) :
    (BCRAServiceB.processResponse raw cuit now).inhabilitado = true := by
  simp only [BCRAServiceB.processResponse] at h ⊢
  exact decide_eq_true h

/-- C2 (amended): in the second variant, a reduced bureau response whose
tier-5 count is positive is `inhabilitado`, the bureau stage fails with
`requiresManualReview = false`, and the evaluation of any applicant
whose identifier passes the delinquency stage is `rechazado` outright.
(In `src/lib` the tier-5 condition instead feeds the 100000 amount cap;
see the counterexample.) -/
theorem situacion5_outright_rejection_old
    (raw : List Deuda) (cuit now : String)
    (vc : String → Bool) (tc : String → Except String String)
    (mock : String → BCRAResponse) (rand : ℚ) (c : ClienteData)
    (h5 : 0 < (BCRAServiceB.processResponse raw cuit now).resumen.situacion5)
    (hvc : vc c.dni = true)
    (hp : (VSOld.validateProtecap c.dni).success = true) :
    (VSOld.validateBCRA vc tc mock
      (Except.ok (BCRAServiceB.processResponse raw cuit now)) c.dni).success = false ∧
    (VSOld.validateBCRA vc tc mock
      (Except.ok (BCRAServiceB.processResponse raw cuit now)) c.dni).requiresManualReview
        = false ∧
    (VSOld.evaluateCliente vc tc mock
      (Except.ok (BCRAServiceB.processResponse raw cuit now)) rand c).resultado =
        Resultado.rechazado := by
  have hinh := processResponse_inhabilitado raw cuit now h5
  have hstage : VSOld.validateBCRA vc tc mock
      (Except.ok (BCRAServiceB.processResponse raw cuit now)) c.dni =
      { success := false, message := "Cliente inhabilitado en BCRA (Situación 5)" } := by
    unfold VSOld.validateBCRA
    simp [SEAP.cuitStep, hvc, hinh]
  refine ⟨by rw [hstage], by rw [hstage], ?_⟩
  unfold VSOld.evaluateCliente
  simp [hp, hstage]

attribute [local semireducible] Rat.mul Rat.add Rat.sub Rat.inv in
/-- C2 witness: a concrete reduced response with one tier-5 debt,
yielding the outright rejection. -/
theorem situacion5_outright_rejection_old_witness :
    (VSOld.validateBCRA (fun _ => true) BCRAServiceB.dniToCuit (fun _ => respClean)
      (Except.ok (BCRAServiceB.processResponse
        [{ entidad := "E", situacion := 5, monto := 1000, fechaActualizacion := "t" }]
        "20876543215" "t")) clienteBase.dni).success = false ∧
    (VSOld.validateBCRA (fun _ => true) BCRAServiceB.dniToCuit (fun _ => respClean)
      (Except.ok (BCRAServiceB.processResponse
        [{ entidad := "E", situacion := 5, monto := 1000, fechaActualizacion := "t" }]
        "20876543215" "t")) clienteBase.dni).requiresManualReview = false ∧
    (VSOld.evaluateCliente (fun _ => true) BCRAServiceB.dniToCuit (fun _ => respClean)
      (Except.ok (BCRAServiceB.processResponse
        [{ entidad := "E", situacion := 5, monto := 1000, fechaActualizacion := "t" }]
        "20876543215" "t")) (1/2) clienteBase).resultado = Resultado.rechazado :=
  situacion5_outright_rejection_old
    [{ entidad := "E", situacion := 5, monto := 1000, fechaActualizacion := "t" }]
    "20876543215" "t" (fun _ => true) BCRAServiceB.dniToCuit (fun _ => respClean)
    (1/2) clienteBase (by decide) (by decide) (by decide)

/-! ## C4 — monotone amount caps -/

attribute [local semireducible] Rat.mul Rat.add Rat.sub Rat.inv in
/-- C4 counterexample: `src/lib`'s `calculateMaxAmount` has no
problematic-percentage cap (nor an outstanding-amount cap): on a passing
bureau result with 25% problematic entities (`> 20`), income 900001 and
a public-sector, tier-1-bank applicant it returns 150000, exceeding the
claimed 100000 cap. -/
theorem calculateMaxAmountLib_ignores_problematic_cap :
    (VSLib.validateBCRA BCRAServiceB.validateCuit BCRAServiceB.dniToCuit
      (fun _ => respClean) (Except.ok resp25) "87654321").success = true ∧
    20 < (VSLib.validateBCRA BCRAServiceB.validateCuit BCRAServiceB.dniToCuit
      (fun _ => respClean) (Except.ok resp25) "87654321").porcentajeProblematicas ∧
    (VSLib.validateBanco (1/2) cliente900001pub).success = true ∧
    VSLib.calculateMaxAmount cliente900001pub
      (VSLib.validateBCRA BCRAServiceB.validateCuit BCRAServiceB.dniToCuit
        (fun _ => respClean) (Except.ok resp25) "87654321")
      (VSLib.validateBanco (1/2) cliente900001pub) = 150000 ∧
    ¬ VSLib.calculateMaxAmount cliente900001pub
      (VSLib.validateBCRA BCRAServiceB.validateCuit BCRAServiceB.dniToCuit
        (fun _ => respClean) (Except.ok resp25) "87654321")
      (VSLib.validateBanco (1/2) cliente900001pub) ≤ 100000 := by
  decide

theorem capEmpleado_publico_le (a : ℚ) :
    VSOld.capEmpleado a TipoEmpleado.publico ≤ 200000 := min_le_right _ _

theorem capEmpleado_jubilado_le (a : ℚ) :
    VSOld.capEmpleado a TipoEmpleado.jubilado ≤ 200000 := min_le_right _ _

theorem capEmpleado_privado_le (a : ℚ) :
    VSOld.capEmpleado a TipoEmpleado.privado ≤ 150000 := min_le_right _ _

theorem capBancoSituacion_triggered (a : ℚ) (b : Banco) (h : b.situacion = 3) :
    VSOld.capBancoSituacion a (some b) ≤ 150000 := by
  simp only [VSOld.capBancoSituacion, h, if_true]
  exact min_le_right _ _

theorem capPorcentaje_triggered (a : ℚ) (p : ℚ) (h : 20 < p) :
    VSOld.capPorcentaje a (some p) ≤ 100000 := by
  simp only [VSOld.capPorcentaje, h, if_true]
  exact min_le_right _ _

theorem capMontoTotal_triggered (a : ℚ) (m : ℚ) (h : 100000 < m) :
    VSOld.capMontoTotal a (some m) ≤ 100000 := by
  simp only [VSOld.capMontoTotal, h, if_true]
  exact min_le_right _ _

attribute [local semireducible] Rat.mul Rat.add Rat.sub Rat.inv in
/-- C4 (amended): the second variant's `calculateMaxAmount` never
exceeds the inclusive income-bracket base (`>= 1000000 → 200000`,
`>= 800000 → 150000`, `>= 500000 → 100000`, else `0`) and never exceeds
any triggered cap (public-sector/retiree 200000, private-sector 150000,
bank situación-3 150000, problematic percentage `> 20` 100000,
outstanding amount `> 100000` 100000); and income 900000, public
sector, a tier-1 bank, problematic percentage 0 and outstanding
amount within bounds yield exactly 150000.  (`src/lib`'s calculator
uses strict bracket bounds and lacks the last two caps; see the
counterexample.) -/
theorem calculateMaxAmountOld_monotone_caps :
    (∀ (c : ClienteData) (bcra banco : VSOld.VRes),
      VSOld.calculateMaxAmount c bcra banco ≤ VSOld.bracketBase c.sueldoNeto ∧
      ((c.tipoEmpleado = TipoEmpleado.publico ∨ c.tipoEmpleado = TipoEmpleado.jubilado) →
        VSOld.calculateMaxAmount c bcra banco ≤ 200000) ∧
      (c.tipoEmpleado = TipoEmpleado.privado →
        VSOld.calculateMaxAmount c bcra banco ≤ 150000) ∧
      (∀ b : Banco, banco.banco = some b → b.situacion = 3 →
        VSOld.calculateMaxAmount c bcra banco ≤ 150000) ∧
      (∀ p : ℚ, bcra.porcentajeProblematicas = some p → 20 < p →
        VSOld.calculateMaxAmount c bcra banco ≤ 100000) ∧
      (∀ m : ℚ, bcra.montoTotal = some m → 100000 < m →
        VSOld.calculateMaxAmount c bcra banco ≤ 100000)) ∧
    VSOld.calculateMaxAmount cliente900pub
      { success := true, message := "Situación BCRA favorable"
        porcentajeProblematicas := some 0, montoTotal := some 0 }
      (VSOld.validateBanco (1/2) cliente900pub) = 150000 := by
  constructor
  · intro c bcra banco
    have h1 : VSOld.calculateMaxAmount c bcra banco ≤
        VSOld.capPorcentaje
          (VSOld.capBancoSituacion (VSOld.capEmpleado (VSOld.bracketBase c.sueldoNeto)
            c.tipoEmpleado) banco.banco) bcra.porcentajeProblematicas :=
      capMontoTotal_le_self _ _
    have h2 : VSOld.calculateMaxAmount c bcra banco ≤
        VSOld.capBancoSituacion (VSOld.capEmpleado (VSOld.bracketBase c.sueldoNeto)
          c.tipoEmpleado) banco.banco :=
      le_trans h1 (capPorcentaje_le_self _ _)
    have h3 : VSOld.calculateMaxAmount c bcra banco ≤
        VSOld.capEmpleado (VSOld.bracketBase c.sueldoNeto) c.tipoEmpleado :=
      le_trans h2 (capBancoSituacion_le_self _ _)
    have h4 : VSOld.calculateMaxAmount c bcra banco ≤ VSOld.bracketBase c.sueldoNeto :=
      le_trans h3 (capEmpleado_le_self _ _)
    refine ⟨h4, ?_, ?_, ?_, ?_, ?_⟩
    · rintro (he | he) <;> rw [he] at h3
      · exact le_trans h3 (capEmpleado_publico_le _)
      · exact le_trans h3 (capEmpleado_jubilado_le _)
    · intro he
      rw [he] at h3
      exact le_trans h3 (capEmpleado_privado_le _)
    · intro b hb hsit
      rw [hb] at h2
      exact le_trans h2 (capBancoSituacion_triggered _ _ hsit)
    · intro p hp hgt
      rw [hp] at h1
      exact le_trans h1 (capPorcentaje_triggered _ _ hgt)
    · intro m hm hgt
      unfold VSOld.calculateMaxAmount
      rw [hm]
      exact capMontoTotal_triggered _ _ hgt
  · decide

/-! ## C10 — unset employment category zeroes high incomes in `src/lib` -/

/-- C10: in `src/lib`'s `calculateMaxAmount`, an applicant with an unset
employment category, no tier-5 flag and net income strictly above
800000 gets amount `0`: the two upper income brackets only assign a
non-zero amount for the `publico`, `jubilado` or `privado` categories. -/
theorem calculateMaxAmountLib_unset_zero
    (c : ClienteData) (bcra : VSLib.BcraRes) (banco : VSLib.VRes)
    (hemp : c.tipoEmpleado = TipoEmpleado.unset)
    (h5 : bcra.situacion5 = false)
    (hs : 800000 < c.sueldoNeto) :
    VSLib.calculateMaxAmount c bcra banco = 0 := by
  unfold VSLib.calculateMaxAmount
  rw [h5]
  have hbase :
      (if 1000000 < c.sueldoNeto then
        match c.tipoEmpleado with
        | TipoEmpleado.publico => (200000 : ℚ)
        | TipoEmpleado.jubilado => 200000
        | TipoEmpleado.privado => 150000
        | TipoEmpleado.unset => 0
      else if 800000 < c.sueldoNeto then
        match c.tipoEmpleado with
        | TipoEmpleado.publico => (150000 : ℚ)
        | TipoEmpleado.jubilado => 150000
        | TipoEmpleado.privado => 100000
        | TipoEmpleado.unset => 0
      else if 500000 < c.sueldoNeto then (100000 : ℚ)
      else 0) = 0 := by
    rw [hemp]
    by_cases h1 : 1000000 < c.sueldoNeto
    · simp [h1]
    · simp [h1, hs]
  simp only [Bool.false_eq_true, if_false, hbase]
  cases hB : banco.banco with
  | none => simp
  | some b =>
    simp only []
    split_ifs
    · exact min_eq_left (by norm_num)
    · rfl

attribute [local semireducible] Rat.mul Rat.add Rat.sub Rat.inv in
/-- C10 witness: income 900000 with unset category and a tier-1 bank in
the details gives amount 0. -/
theorem calculateMaxAmountLib_unset_zero_witness :
    VSLib.calculateMaxAmount { cliente900pub with tipoEmpleado := TipoEmpleado.unset }
      { success := true, message := "Situación BCRA favorable", situacion5 := false
        porcentajeProblematicas := 0 }
      (VSLib.validateBanco (1/2) cliente900pub) = 0 :=
  calculateMaxAmountLib_unset_zero _ _ _ (by decide) (by decide) (by decide)

/-! ## C5 — retry budget and the surfaced error -/

attribute [local semireducible] Rat.mul Rat.add Rat.sub Rat.inv in
/-- C5 counterexample: when every live-mode attempt fails with the
classified error `TIMEOUT`, `consultarDeudas` makes 3 attempts, waits
2000 ms then 4000 ms, and surfaces the last classified error itself —
not a `MAX_RETRIES_EXCEEDED` failure carrying it, as the claim states:
that marker is thrown only when no error was recorded, which cannot
happen when every attempt fails. -/
theorem consultarDeudas_surfaces_last_error :
    (BCRAServiceB.consultarDeudas (some "tok") (fun _ => respClean)
      (fun _ => Except.error "TIMEOUT") "20876543215").outcome = Except.error "TIMEOUT" ∧
    (BCRAServiceB.consultarDeudas (some "tok") (fun _ => respClean)
      (fun _ => Except.error "TIMEOUT") "20876543215").outcome ≠
        Except.error "MAX_RETRIES_EXCEEDED" ∧
    (BCRAServiceB.consultarDeudas (some "tok") (fun _ => respClean)
      (fun _ => Except.error "TIMEOUT") "20876543215").attemptsMade = 3 ∧
    (BCRAServiceB.consultarDeudas (some "tok") (fun _ => respClean)
      (fun _ => Except.error "TIMEOUT") "20876543215").delays = [2000, 4000] := by
  decide

/-- C5 (amended): in live mode (credential present), when every attempt
fails the client makes exactly 3 attempts, waits 2000 ms after the first
failed attempt and 4000 ms after the second, performs no wait after the
final attempt, and surfaces the last classified error itself (the
`MAX_RETRIES_EXCEEDED` marker is reserved for the unreachable case in
which no error was recorded). -/
theorem consultarDeudas_retry_budget
    (t : String) (mock : String → BCRAResponse)
    (attempts : Nat → Except String BCRAResponse) (cuit : String)
    (e1 e2 e3 : String)
    (h1 : attempts 1 = Except.error e1)
    (h2 : attempts 2 = Except.error e2)
    (h3 : attempts 3 = Except.error e3) :
    BCRAServiceB.consultarDeudas (some t) mock attempts cuit =
      { attemptsMade := 3, delays := [2000, 4000], outcome := Except.error e3 } := by
  unfold BCRAServiceB.consultarDeudas SEAP.MAX_RETRIES
  unfold SEAP.retryLoop
  rw [h1]
  unfold SEAP.retryLoop
  rw [h2]
  unfold SEAP.retryLoop
  rw [h3]
  unfold SEAP.retryLoop
  simp

/-- C5 witness: a run in which every attempt fails with
`HTTP_ERROR_503`. -/
theorem consultarDeudas_retry_budget_witness :
    BCRAServiceB.consultarDeudas (some "tok") (fun _ => respClean)
      (fun _ => Except.error "HTTP_ERROR_503") "20876543215" =
      { attemptsMade := 3, delays := [2000, 4000], outcome := Except.error "HTTP_ERROR_503" } :=
  consultarDeudas_retry_budget "tok" (fun _ => respClean)
    (fun _ => Except.error "HTTP_ERROR_503") "20876543215"
    "HTTP_ERROR_503" "HTTP_ERROR_503" "HTTP_ERROR_503" rfl rfl rfl

/-! ## C6 — determinism of the simulated bureau response -/

attribute [local semireducible] Rat.mul Rat.add Rat.sub Rat.inv in
/-- C6 counterexample: the unseeded `generateMockResponse` variant draws
fresh global randomness, so two calls with the same tax identifier (and
the same clock) can return different summaries: a stream at 0 yields the
favourable 2-entity summary, a stream at 9/10 yields a degraded
5-entity summary. -/
theorem mockA_nondeterministic :
    (BCRAServiceA.generateMockResponse (fun _ => 0) "20876543215" "t").resumen ≠
    (BCRAServiceA.generateMockResponse (fun _ => 9/10) "20876543215" "t").resumen := by
  decide

/-- C6 (amended): the seeded `generateMockResponse` variant's summary
(per-tier counts, totals, `inhabilitado`) is a function of the tax
identifier alone — the wall clock only enters the timestamp fields — so
repeated queries with the same identifier agree, within and across
processes.  (The unseeded variant is nondeterministic; see the
counterexample.) -/
theorem mockB_summary_deterministic (cuit n1 n2 : String) :
    (BCRAServiceB.generateMockResponse cuit n1).map (fun r => (r.resumen, r.inhabilitado)) =
    (BCRAServiceB.generateMockResponse cuit n2).map (fun r => (r.resumen, r.inhabilitado)) := by
  unfold BCRAServiceB.generateMockResponse
  cases BCRAServiceB.parseIntLeading (BCRAServiceB.strTakeLast 4 cuit) with
  | none => rfl
  | some seed =>
    simp only [Option.map_some']
    split_ifs <;> rfl

/-! ## C7 — `IsValidTaxId` (`validateCuit`) characterization -/

/-- Claim-side check digit (spec words): `11 - (sum mod 11)`, mapped to
`0` when the raw remainder is 0 or 1. -/
def claimCheckDigit (sum : Nat) : Nat :=
  let r := sum % 11
  if r < 2 then 0 else 11 - r

/-- The claim's reading of `IsValidTaxId`: exactly 11 digits whose 11th
digit equals `claimCheckDigit` of the weighted sum of the first ten. -/
def claimIsValidTaxId (s : String) : Prop :=
  s.length = 11 ∧ (∀ c ∈ s.data, c.isDigit = true) ∧
  claimCheckDigit (weightedSum ((s.data.take 10).map charDigit)) = charDigit (s.data.getD 10 '0')

/-- Amended reading: the code keeps a raw remainder below 2 as the check
digit itself (so remainder 1 demands check digit 1, not 0). -/
def amendedIsValidTaxId (s : String) : Prop :=
  s.length = 11 ∧ (∀ c ∈ s.data, c.isDigit = true) ∧
  checkDigitFrom (weightedSum ((s.data.take 10).map charDigit)) = charDigit (s.data.getD 10 '0')

instance (s : String) : Decidable (claimIsValidTaxId s) := by
  unfold claimIsValidTaxId
  infer_instance

instance (s : String) : Decidable (amendedIsValidTaxId s) := by
  unfold amendedIsValidTaxId
  infer_instance

/-- C7 counterexample: `"11100000001"` has weighted sum 12, raw
remainder 1: the strict `validateCuit` accepts it (check digit 1), while
the claim's algorithm — remainder 0 or 1 mapped to check digit 0, a
derived digit of 10 invalid — rejects it. -/
theorem validateCuit_remainder_one_mismatch :
    weightedSum (("11100000001".data.take 10).map charDigit) % 11 = 1 ∧
    BCRAServiceB.validateCuit "11100000001" = true ∧
    ¬ claimIsValidTaxId "11100000001" := by
  decide

/-- C7 (amended): the strict `validateCuit` returns `true` iff its
argument is exactly 11 digits and the 11th digit equals the mod-11
weighted checksum of the first 10 digits with weights
`[5,4,3,2,7,6,5,4,3,2]`, where a raw remainder below 2 is kept as the
check digit and otherwise the digit is `11 - remainder`.  (The lenient
`validateCuit` variant also accepts any 7–8-digit string.) -/
theorem validateCuit_strict_characterization (s : String) :
    BCRAServiceB.validateCuit s = true ↔ amendedIsValidTaxId s := by
  unfold BCRAServiceB.validateCuit BCRAServiceB.validateCuitChecksum amendedIsValidTaxId
  simp only [Bool.and_eq_true, beq_iff_eq, List.all_eq_true, Nat.beq_eq_true_eq]
  constructor
  · rintro ⟨⟨hl, hd⟩, hc⟩
    exact ⟨hl, hd, hc⟩
  · rintro ⟨hl, hd, hc⟩
    exact ⟨⟨hl, hd⟩, hc⟩

/-! ## C8 — `PersonIdToTaxId` (`dniToCuit`) roundtrip -/

/-- C8 counterexample: the 8-digit-only `dniToCuit` variant rejects the
valid 7-digit person identifier `"1234567"` with its invalid-length
error, while the claim states every 7–8-digit identifier succeeds. -/
theorem dniToCuitStrict_rejects_seven_digits :
    "1234567".length = 7 ∧
    (∀ c ∈ "1234567".data, c.isDigit = true) ∧
    BCRAServiceB.dniToCuit "1234567" = Except.error "DNI inválido" := by
  decide

/-- A ten-digit-character prefix extended with its own computed check
digit passes the strict `validateCuit`. -/
theorem validateCuit_append_checkDigit (ds : List Char) (hlen : ds.length = 10)
    (hdig : ∀ c ∈ ds, c.isDigit = true) :
    BCRAServiceB.validateCuit
      (String.mk (ds ++ [Nat.digitChar (checkDigitFrom (weightedSum (ds.map charDigit)))]))
      = true := by
  have hd10 : checkDigitFrom (weightedSum (ds.map charDigit)) < 10 := checkDigitFrom_lt_ten _
  unfold BCRAServiceB.validateCuit BCRAServiceB.validateCuitChecksum
  have hdata : (String.mk (ds ++ [Nat.digitChar (checkDigitFrom (weightedSum (ds.map charDigit)))])).data
      = ds ++ [Nat.digitChar (checkDigitFrom (weightedSum (ds.map charDigit)))] := rfl
  have hslen : (String.mk (ds ++ [Nat.digitChar (checkDigitFrom (weightedSum (ds.map charDigit)))])).length
      = 11 := by
    show (ds ++ [Nat.digitChar (checkDigitFrom (weightedSum (ds.map charDigit)))]).length = 11
    simp [hlen]
  have htake : (ds ++ [Nat.digitChar (checkDigitFrom (weightedSum (ds.map charDigit)))]).take 10 = ds :=
    List.take_left' hlen
  have hgetD : (ds ++ [Nat.digitChar (checkDigitFrom (weightedSum (ds.map charDigit)))]).getD 10 '0'
      = Nat.digitChar (checkDigitFrom (weightedSum (ds.map charDigit))) := by
    rw [List.getD_append_right _ _ _ _ (by rw [hlen])]
    simp [hlen]
  have hall : (ds ++ [Nat.digitChar (checkDigitFrom (weightedSum (ds.map charDigit)))]).all Char.isDigit
      = true := by
    rw [List.all_append]
    simp only [Bool.and_eq_true, List.all_eq_true]
    exact ⟨hdig, by simpa using digitChar_isDigit _ hd10⟩
  rw [hdata, hslen, htake, hgetD, hall, charDigit_digitChar _ hd10]
  simp

/-- C8 (amended): the left-padding `dniToCuit` variant sends every
7–8-digit person identifier to `Except.ok` of the 11-digit string
`"20"`, then the identifier left-padded to 8 digits, then a check digit
below 10 computed by the mod-11 algorithm; the result passes the strict
`validateCuit`; and identifiers whose digit count is outside 7–8 fail
with `DNI_INVALID_LENGTH`.  (Determinism is inherent: the function's
output depends only on its argument.)  The 8-digit-only variant instead
rejects 7-digit identifiers; see the counterexample. -/
theorem dniToCuitPad_roundtrip :
    (∀ dni : String, (∀ c ∈ dni.data, c.isDigit = true) → 7 ≤ dni.length → dni.length ≤ 8 →
      ∃ d : Nat, d < 10 ∧
        BCRAServiceA.dniToCuit dni =
          Except.ok (String.mk (('2' :: '0' :: (List.replicate (8 - dni.length) '0' ++ dni.data))
            ++ [Nat.digitChar d])) ∧
        BCRAServiceB.validateCuit
          (String.mk (('2' :: '0' :: (List.replicate (8 - dni.length) '0' ++ dni.data))
            ++ [Nat.digitChar d])) = true) ∧
    (∀ dni : String, (∀ c ∈ dni.data, c.isDigit = true) →
      (dni.length < 7 ∨ 8 < dni.length) →
      BCRAServiceA.dniToCuit dni = Except.error "DNI_INVALID_LENGTH") := by
  constructor
  · intro dni hdig h7 h8
    have hfilter : dni.data.filter Char.isDigit = dni.data := List.filter_eq_self.mpr hdig
    have hlen : dni.data.length = dni.length := rfl
    have hbaselen : ('2' :: '0' :: (List.replicate (8 - dni.length) '0' ++ dni.data)).length = 10 := by
      simp only [List.length_cons, List.length_append, List.length_replicate, hlen]
      omega
    have htakebase : ('2' :: '0' :: (List.replicate (8 - dni.length) '0' ++ dni.data)).take 10
        = '2' :: '0' :: (List.replicate (8 - dni.length) '0' ++ dni.data) := by
      rw [← hbaselen]
      exact List.take_length _
    have hbdig : ∀ c ∈ ('2' :: '0' :: (List.replicate (8 - dni.length) '0' ++ dni.data)),
        c.isDigit = true := by
      intro c hc
      simp only [List.mem_cons, List.mem_append, List.mem_replicate] at hc
      rcases hc with rfl | rfl | ⟨_, rfl⟩ | hc
      · decide
      · decide
      · decide
      · exact hdig c hc
    refine ⟨checkDigitFrom (weightedSum
        ((('2' :: '0' :: (List.replicate (8 - dni.length) '0' ++ dni.data)).take 10).map charDigit)),
      checkDigitFrom_lt_ten _, ?_, ?_⟩
    · unfold BCRAServiceA.dniToCuit
      simp only [hfilter, hlen]
      rw [if_neg (by omega)]
    · rw [htakebase]
      exact validateCuit_append_checkDigit _ hbaselen hbdig
  · intro dni hdig hout
    unfold BCRAServiceA.dniToCuit
    simp only [List.filter_eq_self.mpr hdig]
    have hlen : dni.data.length = dni.length := rfl
    rw [if_pos (by omega)]

/-! ## C9 — bank-stage failure conditions -/

/-- The claim's failure conditions for the bank stage, read against
`src/lib`'s bank table: unknown bank; account-requiring bank with a
missing/blank account; restricted bank with income ≤ 650000; risk tier
≥ 4; the account-requiring restricted bank (`"macro"`) with
private-sector employment; or the residual simulated blocked-account
draw. -/
def bancoFailsLib (rand : ℚ) (c : ClienteData) : Prop :=
  VSLib.bancosHabilitados.find? (fun b => b.id == c.bancoPagador) = none ∨
  ∃ b : Banco, VSLib.bancosHabilitados.find? (fun b => b.id == c.bancoPagador) = some b ∧
    ((b.id = "macro" ∧ c.tipoEmpleado = TipoEmpleado.privado) ∨
     (b.restricciones = true ∧ c.sueldoNeto ≤ 650000) ∨
     4 ≤ b.situacion ∨
     (b.requiereCuenta = true ∧ VSLib.cuentaBlank c.numeroCuenta = true) ∨
     (b.id = "macro" ∧ VSLib.cuentaTruthy c.numeroCuenta = true ∧ rand < 1/10))

attribute [local semireducible] Rat.mul Rat.add Rat.sub Rat.inv in
/-- C9 counterexample: in the second variant's bank stage the
restriction boundary is strict, so the restricted, account-requiring
bank `"macro"` with net income exactly 650000 (and a blocked-account
draw that passes) succeeds — while the claim says a restricted bank
with income ≤ 650000 fails. -/
theorem validateBancoOld_boundary_passes :
    clienteMacro650.sueldoNeto = 650000 ∧
    VSOld.bancosData.find? (fun b => b.id == clienteMacro650.bancoPagador) =
      some { id := "macro", nombre := "Banco Macro", restricciones := true
             situacion := 2, requiereCuenta := true } ∧
    (VSOld.validateBanco (1/2) clienteMacro650).success = true := by
  decide

/-- C9 (amended): `src/lib`'s bank stage fails exactly under the claim's
conditions (unknown bank; account-requiring bank with missing/blank
account; restricted bank with income ≤ 650000; risk tier ≥ 4; `"macro"`
with private-sector employment; residual blocked-account draw, which in
this variant only applies to `"macro"` with an account present).  The
second variant instead uses a strict 650000 bound and draws the
blocked-account check for every bank; see the counterexample. -/
theorem validateBancoLib_fail_characterization (rand : ℚ) (c : ClienteData) :
    (VSLib.validateBanco rand c).success = false ↔ bancoFailsLib rand c := by
  unfold VSLib.validateBanco bancoFailsLib
  cases hf : VSLib.bancosHabilitados.find? (fun b => b.id == c.bancoPagador) with
  | none => simp [hf]
  | some b =>
    simp only [hf]
    split_ifs <;> simp [not_lt, one_div] at * <;> tauto

/-! ## C3 — tri-state outcome and the pendiente condition -/

/-- A bureau-stage technical failure as the claim describes it: the
identifier derivation throws, or the consult throws anything other than
the credential-missing marker (i.e. `TIMEOUT`, `HTTP_ERROR_*`,
`MAX_RETRIES_EXCEEDED`, or an unknown error). -/
def bureauTechFailure (vc : String → Bool) (tc : String → Except String String)
    (fetch : Except String BCRAResponse) (dni : String) : Prop :=
  (∃ m, cuitStep vc tc dni = Except.error m) ∨
  ((∃ cu, cuitStep vc tc dni = Except.ok cu) ∧
   ∃ e, fetch = Except.error e ∧ e ≠ "TOKEN_NOT_CONFIGURED")

theorem analyzeBCRA_rmr (r : BCRAResponse) :
    (VSLib.analyzeBCRA r).requiresManualReview = false := by
  simp only [VSLib.analyzeBCRA]
  split_ifs <;> rfl

theorem validateBCRALib_manualReview_iff (vc : String → Bool)
    (tc : String → Except String String) (mock : String → BCRAResponse)
    (fetch : Except String BCRAResponse) (dni : String) :
    (VSLib.validateBCRA vc tc mock fetch dni).requiresManualReview = true ↔
      bureauTechFailure vc tc fetch dni := by
  unfold VSLib.validateBCRA bureauTechFailure
  cases hc : cuitStep vc tc dni with
  | error m => simp [hc]
  | ok cu =>
    cases fetch with
    | ok r => simp [hc, analyzeBCRA_rmr]
    | error e =>
      by_cases he : e = "TOKEN_NOT_CONFIGURED"
      · subst he
        simp [hc, analyzeBCRA_rmr]
      · simp [hc, he]

theorem validateBCRALib_manualReview_success (vc : String → Bool)
    (tc : String → Except String String) (mock : String → BCRAResponse)
    (fetch : Except String BCRAResponse) (dni : String)
    (h : (VSLib.validateBCRA vc tc mock fetch dni).requiresManualReview = true) :
    (VSLib.validateBCRA vc tc mock fetch dni).success = false := by
  unfold VSLib.validateBCRA at h ⊢
  cases hc : cuitStep vc tc dni with
  | error m => simp [hc]
  | ok cu =>
    simp only [hc] at h ⊢
    cases fetch with
    | ok r => simp [analyzeBCRA_rmr] at h
    | error e =>
      by_cases he : e = "TOKEN_NOT_CONFIGURED"
      · subst he
        simp [analyzeBCRA_rmr] at h
      · simp [he]

/-- C3: `src/lib`'s `evaluateCliente` is a total function returning one
of the three outcomes (no exception reaches the caller: every stage
catches its own faults), and its result is `pendiente` exactly when the
income and delinquency stages pass and the bureau stage hits a
technical failure — the identifier derivation throwing, or the consult
throwing `TIMEOUT`, an `HTTP_ERROR_*`, `MAX_RETRIES_EXCEEDED` or an
unknown error (anything except the credential-missing marker, which
falls back to the mock) — in which case the recorded bureau result is
flagged `requiresManualReview`.  Every other stage failure yields
`rechazado`, never `pendiente`. -/
theorem evaluateClienteLib_tristate (vc : String → Bool)
    (tc : String → Except String String) (mock : String → BCRAResponse)
    (fetch : Except String BCRAResponse) (rand : ℚ) (c : ClienteData) :
    ((VSLib.evaluateCliente vc tc mock fetch rand c).resultado = Resultado.pendiente ↔
      (¬ c.sueldoNeto < 500000 ∧ (VSLib.validateProtecap c.dni).success = true ∧
        bureauTechFailure vc tc fetch c.dni)) ∧
    ((VSLib.evaluateCliente vc tc mock fetch rand c).resultado = Resultado.pendiente →
      (VSLib.evaluateCliente vc tc mock fetch rand c).bcra.requiresManualReview = true) ∧
    ((VSLib.evaluateCliente vc tc mock fetch rand c).resultado = Resultado.aprobado ∨
     (VSLib.evaluateCliente vc tc mock fetch rand c).resultado = Resultado.rechazado ∨
     (VSLib.evaluateCliente vc tc mock fetch rand c).resultado = Resultado.pendiente) := by
  have hiff := validateBCRALib_manualReview_iff vc tc mock fetch c.dni
  have hsv : (VSLib.validateSueldoMinimo c.sueldoNeto).success = false ↔
      c.sueldoNeto < 500000 := by
    unfold VSLib.validateSueldoMinimo
    split_ifs with h <;> simp [h]
  unfold VSLib.evaluateCliente
  by_cases hs : (VSLib.validateSueldoMinimo c.sueldoNeto).success = false
  · rw [if_pos hs]
    refine ⟨?_, ?_, ?_⟩
    · constructor
      · intro h
        exact Resultado.noConfusion h
      · rintro ⟨hns, -, -⟩
        exact absurd (hsv.mp hs) hns
    · intro h
      exact Resultado.noConfusion h
    · exact Or.inr (Or.inl rfl)
  · rw [if_neg hs]
    have hs' : ¬ c.sueldoNeto < 500000 := fun hlt => hs (hsv.mpr hlt)
    by_cases hp : (VSLib.validateProtecap c.dni).success = false
    · rw [if_pos hp]
      refine ⟨?_, ?_, ?_⟩
      · constructor
        · intro h
          exact Resultado.noConfusion h
        · rintro ⟨-, hpt, -⟩
          rw [hp] at hpt
          exact Bool.noConfusion hpt
      · intro h
        exact Resultado.noConfusion h
      · exact Or.inr (Or.inl rfl)
    · rw [if_neg hp]
      have hp' : (VSLib.validateProtecap c.dni).success = true := by
        revert hp
        cases (VSLib.validateProtecap c.dni).success <;> simp
      by_cases hb : (VSLib.validateBCRA vc tc mock fetch c.dni).success = false
      · rw [if_pos hb]
        by_cases hm : (VSLib.validateBCRA vc tc mock fetch c.dni).requiresManualReview = true
        · rw [if_pos hm]
          refine ⟨?_, ?_, ?_⟩
          · exact iff_of_true rfl ⟨hs', hp', hiff.mp hm⟩
          · intro _
            exact hm
          · exact Or.inr (Or.inr rfl)
        · rw [if_neg hm]
          refine ⟨?_, ?_, ?_⟩
          · constructor
            · intro h
              exact Resultado.noConfusion h
            · rintro ⟨-, -, htf⟩
              exact absurd (hiff.mpr htf) hm
          · intro h
            exact Resultado.noConfusion h
          · exact Or.inr (Or.inl rfl)
      · rw [if_neg hb]
        have hok : ∀ P : Prop, bureauTechFailure vc tc fetch c.dni → P := by
          intro P htf
          exact absurd (validateBCRALib_manualReview_success vc tc mock fetch c.dni
            (hiff.mpr htf)) hb
        by_cases hk : (VSLib.validateBanco rand c).success = false
        · rw [if_pos hk]
          refine ⟨?_, ?_, ?_⟩
          · constructor
            · intro h
              exact Resultado.noConfusion h
            · rintro ⟨-, -, htf⟩
              exact hok _ htf
          · intro h
            exact Resultado.noConfusion h
          · exact Or.inr (Or.inl rfl)
        · rw [if_neg hk]
          refine ⟨?_, ?_, ?_⟩
          · constructor
            · intro h
              exact Resultado.noConfusion h
            · rintro ⟨-, -, htf⟩
              exact hok _ htf
          · intro h
            exact Resultado.noConfusion h
          · exact Or.inl rfl

end SEAP
